import Mathlib

/-!
Shallow embedding of the certificate-inventory and EKS-token core of the
k8s-poc-polaris service.

Modelling conventions:
* `time.Time` values and `time.Duration` values are integer counts of
  nanoseconds (`Int`), as in Go's internal representation.  Go's
  `d.Hours()` followed by `int(...)` truncates toward zero, which on
  nanosecond counts is `Int.tdiv` by the nanoseconds-per-hour constant.
* A PEM input string is modelled by `PemText`: the ordered list of
  syntactically well-formed PEM blocks `encoding/pem.Decode` would yield,
  plus a flag recording whether the raw string was empty (`== ""`),
  which is the only other observation the code makes of the raw text.
* The external DER parser `crypto/x509.ParseCertificate` is an abstract
  parameter `px : X509Parse` mapping a block body to `Option RawCert`;
  `none` models a parse error.  Certificate fields already extracted by
  the x509 library (subject/issuer strings, IP strings, key-usage bits)
  live in `RawCert`.
* Go byte strings handled by the token generator are `List Nat` (byte
  values); `strBytes` converts an ASCII literal.
-/

/-- Nanoseconds in one hour (Go `time.Hour`). -/
def nsPerHour : Int := 3600000000000

/-- Nanoseconds in one day (24 · `time.Hour`). -/
def nsPerDay : Int := 86400000000000

/-- Two-digit zero padding, as Go date formatting produces for "01" / "02". -/
def pad2 (n : Nat) : String :=
  if n < 10 then "0" ++ toString n else toString n

/-- Four-digit zero padding, as Go date formatting produces for "2006". -/
def pad4 (n : Nat) : String :=
  if n < 10 then "000" ++ toString n
  else if n < 100 then "00" ++ toString n
  else if n < 1000 then "0" ++ toString n
  else toString n

/-- Civil date of a UTC instant (nanoseconds since the Unix epoch) in
Go `Format("2006-01-02")` layout, via the standard days-to-civil
conversion of the proleptic Gregorian calendar. -/
def formatYMD (t : Int) : String :=
  let days : Int := Int.fdiv t nsPerDay
  let z : Int := days + 719468
  let era : Int := Int.fdiv z 146097
  let doe : Nat := (z - era * 146097).toNat
  let yoe : Nat := (doe - doe / 1460 + doe / 36524 - doe / 146096) / 365
  let y : Int := (yoe : Int) + era * 400
  let doy : Nat := doe - (365 * yoe + yoe / 4 - yoe / 100)
  let mp : Nat := (5 * doy + 2) / 153
  let d : Nat := doy - (153 * mp + 2) / 5 + 1
  let m : Nat := if mp < 10 then mp + 3 else mp - 9
  let year : Int := y + (if m ≤ 2 then 1 else 0)
  pad4 year.toNat ++ "-" ++ pad2 m ++ "-" ++ pad2 d

/-- One syntactically well-formed PEM block: its type line and an
abstract identifier for its DER byte content. -/
structure PemBlock where
  blockType : String
  der : Nat
deriving DecidableEq

/-- A PEM input string, abstracted to what the code observes of it: the
sequence of well-formed PEM blocks and whether the raw string was empty. -/
structure PemText where
  isEmptyStr : Bool
  blocks : List PemBlock
deriving DecidableEq

/-- Result of the external `x509.ParseCertificate`, with the fields the
code reads (strings already rendered the way the Go x509 API renders
them; times as nanosecond instants; key usage as the x509 bitmask). -/
structure RawCert where
  subject : String
  issuer : String
  serialNumber : String
  notBefore : Int
  notAfter : Int
  dnsNames : List String
  ipAddresses : List String
  keyUsage : Nat
  isCA : Bool
deriving DecidableEq

/-- Abstract DER certificate parser (`crypto/x509.ParseCertificate`);
`none` models a parse error. -/
def X509Parse : Type := Nat → Option RawCert

/-- CertificateInfo from pkg/utils/cert.go. -/
structure CertificateInfo where
  subject : String
  issuer : String
  serialNumber : String
  notBefore : Int
  notAfter : Int
  isExpired : Bool
  daysUntilExp : Int
  dnsNames : List String
  ipAddresses : List String
  keyUsage : List String
  isCA : Bool
deriving DecidableEq

/-- Key-usage label extraction from cert.go lines 59-77 (and its verbatim
copy in ParseCertificateBundle): x509 bit values are DigitalSignature=1,
KeyEncipherment=4, DataEncipherment=8, KeyAgreement=16, CertSign=32,
CRLSign=64. -/
def keyUsageLabels (ku : Nat) : List String :=
  let l : List String := []
  let l := if ku &&& 1 ≠ 0 then l ++ ["Digital Signature"] else l
  let l := if ku &&& 4 ≠ 0 then l ++ ["Key Encipherment"] else l
  let l := if ku &&& 8 ≠ 0 then l ++ ["Data Encipherment"] else l
  let l := if ku &&& 16 ≠ 0 then l ++ ["Key Agreement"] else l
  let l := if ku &&& 32 ≠ 0 then l ++ ["Certificate Sign"] else l
  let l := if ku &&& 64 ≠ 0 then l ++ ["CRL Sign"] else l
  l

/-- The CertificateInfo record built from a parsed certificate at instant
`now` (cert.go lines 47-91, duplicated at lines 117-161):
`isExpired := now.After(NotAfter)` is the strict comparison
`NotAfter < now`, and `daysUntilExp := int(NotAfter.Sub(now).Hours()/24)`
truncates the exact ratio toward zero, i.e. `Int.tdiv` by `nsPerDay`. -/
def mkCertInfo (now : Int) (cert : RawCert) : CertificateInfo :=
  { subject := cert.subject
    issuer := cert.issuer
    serialNumber := cert.serialNumber
    notBefore := cert.notBefore
    notAfter := cert.notAfter
    isExpired := decide (cert.notAfter < now)
    daysUntilExp := Int.tdiv (cert.notAfter - now) nsPerDay
    dnsNames := cert.dnsNames
    ipAddresses := cert.ipAddresses
    keyUsage := keyUsageLabels cert.keyUsage
    isCA := cert.isCA }

/-- ParseCertificate (cert.go lines 27-92).  `pem.Decode` yields the
first well-formed block or nil; the trailing rest of the input is
discarded by `block, _ := pem.Decode(...)`. -/
def ParseCertificate (px : X509Parse) (now : Int) (certPEM : PemText) :
    Except String CertificateInfo :=
  match certPEM.blocks with
  | [] => .error "failed to decode PEM block"
  | block :: _ =>
    if block.blockType ≠ "CERTIFICATE" then
      .error ("not a certificate, found: " ++ block.blockType)
    else
      match px block.der with
      | none => .error "failed to parse certificate"
      | some cert => .ok (mkCertInfo now cert)

/-- The scanning loop of ParseCertificateBundle (cert.go lines 102-170):
decode the next block; skip it when its type is not CERTIFICATE or its
DER fails to parse; append the record otherwise; stop when no block
remains. -/
def bundleLoop (px : X509Parse) (now : Int) :
    List PemBlock → List CertificateInfo → List CertificateInfo
  | [], certificates => certificates
  | block :: rest, certificates =>
    if block.blockType = "CERTIFICATE" then
      match px block.der with
      | none => bundleLoop px now rest certificates
      | some cert => bundleLoop px now rest (certificates ++ [mkCertInfo now cert])
    else bundleLoop px now rest certificates

/-- ParseCertificateBundle (cert.go lines 95-177). -/
def ParseCertificateBundle (px : X509Parse) (now : Int) (certBundle : PemText) :
    Except String (List CertificateInfo) :=
  let certificates := bundleLoop px now certBundle.blocks []
  if certificates.isEmpty then .error "no valid certificates found in bundle"
  else .ok certificates

/-- ValidateCertificateExpiry (cert.go lines 180-194): one pass over the
records, appending a warning for expired records and for records within
the warning window. -/
def ValidateCertificateExpiry (certs : List CertificateInfo) (warningDays : Int) :
    List String :=
  certs.foldl (fun warnings cert =>
    if cert.isExpired then
      warnings ++ ["Certificate '" ++ cert.subject ++ "' has EXPIRED on "
        ++ formatYMD cert.notAfter]
    else if cert.daysUntilExp ≤ warningDays then
      warnings ++ ["Certificate '" ++ cert.subject ++ "' expires in "
        ++ toString cert.daysUntilExp ++ " days (" ++ formatYMD cert.notAfter ++ ")"]
    else warnings) []

/-- CertificateSource from internal/k8s/certificates.go lines 15-22
(`nspace` embeds the `Namespace` field). -/
structure CertificateSource where
  stype : String
  name : String
  nspace : String := ""
  key : String := ""
  certificates : List CertificateInfo := []
  error : Option String := none
deriving DecidableEq

/-- A fetched secret object: its `Data` map, keyed string to byte value
(values modelled as `PemText`, see module header). -/
structure SecretObj where
  data : String → Option PemText

/-- A fetched configmap object: its `Data` and `BinaryData` maps. -/
structure ConfigMapObj where
  data : String → Option PemText
  binaryData : String → Option PemText

/-- Candidate key list scanned in secrets (certificates.go lines 43-47). -/
def secretCertKeys : List String :=
  ["tls.crt", "tls.cert", "cert.pem", "certificate.pem", "ca.crt", "ca.pem",
   "client.crt", "server.crt", "cert", "certificate", "ca-bundle.crt",
   "ca-bundle.pem", "root-ca.pem", "intermediate-ca.pem"]

/-- Candidate key list scanned in configmaps (certificates.go lines 95-99). -/
def configMapCertKeys : List String :=
  ["ca.crt", "ca.pem", "ca-bundle.crt", "ca-bundle.pem", "root-ca.pem",
   "intermediate-ca.pem", "tls.crt", "tls.cert", "cert.pem", "certificate.pem",
   "client.crt", "server.crt", "cert", "certificate"]

/-- Per-key parse attempt shared by secret and configmap extraction
(certificates.go lines 55-68 and 116-129): single-certificate parse
first, bundle parse on failure, each resulting record annotated with
the key it came from. -/
def parseKeyCerts (px : X509Parse) (now : Int) (key : String) (certString : PemText) :
    List CertificateInfo :=
  match ParseCertificate px now certString with
  | .ok cert => [{ cert with subject := cert.subject ++ " (from " ++ key ++ ")" }]
  | .error _ =>
    match ParseCertificateBundle px now certString with
    | .ok certs =>
      certs.map (fun cert => { cert with subject := cert.subject ++ " (from " ++ key ++ ")" })
    | .error _ => []

/-- ExtractCertificatesFromSecret (certificates.go lines 25-74); the
second component is the Go error return (`some` of the fetch error's
message, exactly when the secret fetch failed). -/
def ExtractCertificatesFromSecret (px : X509Parse) (now : Int)
    (getSecret : String → String → Except String SecretObj)
    (nspace secretName : String) : CertificateSource × Option String :=
  match getSecret nspace secretName with
  | .error e =>
    ({ stype := "secret", name := secretName, nspace := nspace,
       error := some ("Failed to get secret: " ++ e) }, some e)
  | .ok secret =>
    let allCerts := secretCertKeys.foldl (fun acc key =>
      match secret.data key with
      | some certData => acc ++ parseKeyCerts px now key certData
      | none => acc) []
    ({ stype := "secret", name := secretName, nspace := nspace,
       certificates := allCerts }, none)

/-- The per-key body of the configmap scan (certificates.go lines
104-130): the `Data` entry is consulted first and the `BinaryData` entry
only when the key is absent from `Data`. -/
def configMapKeyStep (px : X509Parse) (now : Int) (configMap : ConfigMapObj)
    (acc : List CertificateInfo) (key : String) : List CertificateInfo :=
  match configMap.data key with
  | some certData => acc ++ parseKeyCerts px now key certData
  | none =>
    match configMap.binaryData key with
    | some certData => acc ++ parseKeyCerts px now key certData
    | none => acc

/-- The certificate list ExtractCertificatesFromConfigMap accumulates
over the candidate keys of a fetched configmap. -/
def configMapCerts (px : X509Parse) (now : Int) (configMap : ConfigMapObj) :
    List CertificateInfo :=
  configMapCertKeys.foldl (configMapKeyStep px now configMap) []

/-- ExtractCertificatesFromConfigMap (certificates.go lines 77-134). -/
def ExtractCertificatesFromConfigMap (px : X509Parse) (now : Int)
    (getConfigMap : String → String → Except String ConfigMapObj)
    (nspace configMapName : String) : CertificateSource × Option String :=
  match getConfigMap nspace configMapName with
  | .error e =>
    ({ stype := "configmap", name := configMapName, nspace := nspace,
       error := some ("Failed to get configmap: " ++ e) }, some e)
  | .ok configMap =>
    ({ stype := "configmap", name := configMapName, nspace := nspace,
       certificates := configMapCerts px now configMap }, none)

/-- GetClusterCACertificateInfo (certificates.go lines 137-166); the
second component is the Go error return. -/
def GetClusterCACertificateInfo (px : X509Parse) (now : Int) (clusterCA : PemText) :
    CertificateSource × Option String :=
  if clusterCA.isEmptyStr then
    ({ stype := "cluster-ca", name := "kubernetes-cluster-ca",
       error := some "No cluster CA certificate available" },
     some "no cluster CA certificate")
  else
    match ParseCertificate px now clusterCA with
    | .ok cert =>
      ({ stype := "cluster-ca", name := "kubernetes-cluster-ca",
         certificates := [{ cert with subject := cert.subject ++ " (Kubernetes Cluster CA)" }] },
       none)
    | .error _ =>
      match ParseCertificateBundle px now clusterCA with
      | .ok certs =>
        ({ stype := "cluster-ca", name := "kubernetes-cluster-ca",
           certificates :=
             certs.map (fun cert => { cert with subject := cert.subject ++ " (Kubernetes Cluster CA)" }) },
         none)
      | .error _ =>
        ({ stype := "cluster-ca", name := "kubernetes-cluster-ca",
           error := some "Failed to parse cluster CA certificate" },
         some "failed to parse cluster CA certificate")

/-- A pod volume as AnalyzePodCertificates reads it: the optional secret
reference (`volume.Secret.SecretName`) and the optional configmap
reference (`volume.ConfigMap.Name`). -/
structure VolumeRef where
  secret : Option String := none
  configMap : Option String := none

/-- The slice of volumes of a fetched pod spec. -/
structure PodObj where
  volumes : List VolumeRef

/-- The external cluster collaborators AnalyzePodCertificates calls
through: object fetchers and the kubeconfig-derived cluster CA. -/
structure ClusterEnv where
  getPod : String → String → Except String PodObj
  getSecret : String → String → Except String SecretObj
  getConfigMap : String → String → Except String ConfigMapObj
  clusterCA : PemText

/-- Go map insertion (overwrite) on the discovery result map. -/
def mapInsert (key : String) (v : CertificateSource)
    (m : String → Option CertificateSource) : String → Option CertificateSource :=
  fun x => if x = key then some v else m x

/-- Per-volume body of the discovery loop (certificates.go lines
187-219): the secret reference and the configmap reference are handled
by independent conditionals; on extraction error a bare source carrying
`err.Error()` is stored under the same key. -/
def analyzeVolumeStep (px : X509Parse) (now : Int) (env : ClusterEnv) (nspace : String)
    (m : String → Option CertificateSource) (volume : VolumeRef) :
    String → Option CertificateSource :=
  let m :=
    match volume.secret with
    | none => m
    | some secretName =>
      let key := "secret-" ++ secretName
      match ExtractCertificatesFromSecret px now env.getSecret nspace secretName with
      | (source, none) => mapInsert key source m
      | (_, some e) =>
        mapInsert key
          { stype := "secret", name := secretName, nspace := nspace, error := some e } m
  match volume.configMap with
  | none => m
  | some configMapName =>
    let key := "configmap-" ++ configMapName
    match ExtractCertificatesFromConfigMap px now env.getConfigMap nspace configMapName with
    | (source, none) => mapInsert key source m
    | (_, some e) =>
      mapInsert key
        { stype := "configmap", name := configMapName, nspace := nspace, error := some e } m

/-- AnalyzePodCertificates (certificates.go lines 169-222): fetch the
pod, add the cluster CA source only when GetClusterCACertificateInfo
returned no error, then process every volume. -/
def AnalyzePodCertificates (px : X509Parse) (now : Int) (env : ClusterEnv)
    (nspace podName : String) : Except String (String → Option CertificateSource) :=
  match env.getPod nspace podName with
  | .error e => .error ("failed to get pod " ++ podName ++ ": " ++ e)
  | .ok pod =>
    let certSources : String → Option CertificateSource := fun _ => none
    let certSources :=
      match GetClusterCACertificateInfo px now env.clusterCA with
      | (clusterCAInfo, none) => mapInsert "cluster-ca" clusterCAInfo certSources
      | (_, some _) => certSources
    .ok (pod.volumes.foldl (analyzeVolumeStep px now env nspace) certSources)

/-- formatDuration (internal/handlers/cluster_ca.go lines 205-235); `d`
is a nanosecond duration.  For non-negative `d`, Go computes
`days = int(d.Hours()/24)` and `hours = int(d.Hours()) % 24`, which on
nanosecond counts are the natural-number divisions below. -/
def formatDuration (d : Int) : String :=
  if d < 0 then "Expired"
  else
    let days : Nat := d.toNat / 86400000000000
    let hours : Nat := d.toNat / 3600000000000 % 24
    if days > 365 then
      let years := days / 365
      let remainingDays := days % 365
      if remainingDays > 0 then
        toString years ++ " years, " ++ toString remainingDays ++ " days"
      else toString years ++ " years"
    else if days > 30 then
      let months := days / 30
      let remainingDays := days % 30
      if remainingDays > 0 then
        toString months ++ " months, " ++ toString remainingDays ++ " days"
      else toString months ++ " months"
    else if days > 0 then
      if hours > 0 then toString days ++ " days, " ++ toString hours ++ " hours"
      else toString days ++ " days"
    else toString hours ++ " hours"

/-- The early-returning scan loop of getExpiryStatusSummary
(cluster_ca.go lines 243-250). -/
def statusScan (warningDays : Int) : List CertificateInfo → Option String
  | [] => none
  | cert :: rest =>
    if cert.isExpired then some "EXPIRED"
    else if cert.daysUntilExp ≤ warningDays then
      some ("EXPIRES SOON (" ++ toString cert.daysUntilExp ++ " days)")
    else statusScan warningDays rest

/-- getExpiryStatusSummary (cluster_ca.go lines 238-261). -/
def getExpiryStatusSummary (certs : List CertificateInfo) (warningDays : Int) : String :=
  match certs with
  | [] => "No certificates found"
  | c0 :: _ =>
    match statusScan warningDays certs with
    | some s => s
    | none =>
      let minDays := certs.foldl
        (fun minD cert => if cert.daysUntilExp < minD then cert.daysUntilExp else minD)
        c0.daysUntilExp
      "VALID (" ++ toString minDays ++ " days remaining)"

/-- UTF-8 byte list of an ASCII string literal (Go strings in the token
generator are handled as byte sequences). -/
def strBytes (s : String) : List Nat := s.data.map Char.toNat

/-- Decides whether the first list is a leading segment of the second
(the primitive underlying Go `strings.Contains`). -/
def leadsWith : List Nat → List Nat → Bool
  | [], _ => true
  | _ :: _, [] => false
  | a :: as, b :: bs => a == b && leadsWith as bs

/-- Go `strings.Contains(hay, needle)` on byte lists. -/
def hasSub (needle : List Nat) : List Nat → Bool
  | [] => needle.isEmpty
  | b :: t => leadsWith needle (b :: t) || hasSub needle t

/-- The URL-safe base64 alphabet (`base64.RawURLEncoding`): byte value of
the character encoding a 6-bit group. -/
def b64UrlAlphabet (n : Nat) : Nat :=
  if n < 26 then 65 + n
  else if n < 52 then 97 + (n - 26)
  else if n < 62 then 48 + (n - 52)
  else if n = 62 then 45
  else 95

/-- `base64.RawURLEncoding.EncodeToString`: unpadded URL-safe base64 of a
byte list, three input bytes per four output characters. -/
def b64urlEncode : List Nat → List Nat
  | [] => []
  | [a] => [b64UrlAlphabet (a / 4), b64UrlAlphabet (a % 4 * 16)]
  | [a, b] =>
    [b64UrlAlphabet (a / 4), b64UrlAlphabet (a % 4 * 16 + b / 16),
     b64UrlAlphabet (b % 16 * 4)]
  | a :: b :: c :: rest =>
    b64UrlAlphabet (a / 4) :: b64UrlAlphabet (a % 4 * 16 + b / 16) ::
    b64UrlAlphabet (b % 16 * 4 + c / 64) :: b64UrlAlphabet (c % 64) ::
    b64urlEncode rest

/-- Value of a URL-safe base64 character (inverse of `b64UrlAlphabet`). -/
def b64UrlValue (ch : Nat) : Nat :=
  if 65 ≤ ch ∧ ch ≤ 90 then ch - 65
  else if 97 ≤ ch ∧ ch ≤ 122 then ch - 97 + 26
  else if 48 ≤ ch ∧ ch ≤ 57 then ch - 48 + 52
  else if ch = 45 then 62
  else 63

/-- Unpadded URL-safe base64 decoding, four characters per three bytes. -/
def b64urlDecode : List Nat → List Nat
  | w :: x :: y :: z :: rest =>
    (b64UrlValue w * 4 + b64UrlValue x / 16) ::
    (b64UrlValue x % 16 * 16 + b64UrlValue y / 4) ::
    (b64UrlValue y % 4 * 64 + b64UrlValue z) :: b64urlDecode rest
  | [w, x] => [b64UrlValue w * 4 + b64UrlValue x / 16]
  | [w, x, y] =>
    [b64UrlValue w * 4 + b64UrlValue x / 16, b64UrlValue x % 16 * 16 + b64UrlValue y / 4]
  | _ => []

/-- Cluster-id annotation of the presigned URL (internal/auth/aws.go
lines 109-115): when the URL does not already contain "X-K8s-Aws-Id",
append "X-K8s-Aws-Id=<clusterName>" with separator "&" if the URL
already contains "?" and "?" otherwise. -/
def addClusterId (clusterName urlStr : List Nat) : List Nat :=
  if hasSub (strBytes "X-K8s-Aws-Id") urlStr then urlStr
  else
    let separator := if hasSub (strBytes "?") urlStr then strBytes "&" else strBytes "?"
    urlStr ++ separator ++ strBytes "X-K8s-Aws-Id=" ++ clusterName

/-- Token assembly of GenerateToken (aws.go lines 104-118) given the
presigned URL string returned by the external presign call. -/
def tokenPayload (clusterName presignedURL : List Nat) : List Nat :=
  strBytes "k8s-aws-v1." ++ b64urlEncode (addClusterId clusterName presignedURL)

/-- Token-generation phase of NewClient (src/unnamed/part_001 lines
52-61): the external helper strategy result and the self-built fallback
strategy result are supplied by the caller; the second component is the
trace of strategies actually invoked, in order. -/
def newClientToken (authenticatorToken customToken : Except String String) :
    Except String String × List String :=
  match authenticatorToken with
  | .ok token => (.ok token, ["aws-iam-authenticator"])
  | .error _ =>
    match customToken with
    | .ok token => (.ok token, ["aws-iam-authenticator", "GenerateToken"])
    | .error e =>
      (.error ("failed to generate EKS token: " ++ e),
       ["aws-iam-authenticator", "GenerateToken"])

/-- Modelled from the spec, for comparison with ParseCertificateBundle:
the bundle parse scans the sequential blocks, skips every block that is
not a parsable certificate, and errs exactly when no record survives. -/
def parseCertificateBundleSpec (px : X509Parse) (now : Int) (certBundle : PemText) :
    Except String (List CertificateInfo) :=
  let certs := certBundle.blocks.filterMap (fun block =>
    if block.blockType = "CERTIFICATE" then (px block.der).map (mkCertInfo now) else none)
  if certs = [] then .error "no valid certificates found in bundle" else .ok certs

/-- Modelled from the spec, for comparison with ValidateCertificateExpiry:
per record in order, an EXPIRED line for expired records, an expires-in
line for records within the warning window, nothing otherwise. -/
def warningsForSpec (certs : List CertificateInfo) (warningDays : Int) : List String :=
  certs.filterMap (fun cert =>
    if cert.isExpired then
      some ("Certificate '" ++ cert.subject ++ "' has EXPIRED on "
        ++ formatYMD cert.notAfter)
    else if cert.daysUntilExp ≤ warningDays then
      some ("Certificate '" ++ cert.subject ++ "' expires in "
        ++ toString cert.daysUntilExp ++ " days (" ++ formatYMD cert.notAfter ++ ")")
    else none)

/-- Modelled from the spec, for comparison with formatDuration: days is
the integer hour count divided by 24 and the hour remainder is the
integer hour count mod 24, with the exact threshold and omission rules
of the spec. -/
def formatRemainingSpec (d : Int) : String :=
  if d < 0 then "Expired"
  else
    let hoursTotal : Nat := d.toNat / 3600000000000
    let days : Nat := hoursTotal / 24
    let hoursRem : Nat := hoursTotal % 24
    if days > 365 then
      if days % 365 > 0 then
        toString (days / 365) ++ " years, " ++ toString (days % 365) ++ " days"
      else toString (days / 365) ++ " years"
    else if days > 30 then
      if days % 30 > 0 then
        toString (days / 30) ++ " months, " ++ toString (days % 30) ++ " days"
      else toString (days / 30) ++ " months"
    else if days > 0 then
      if hoursRem > 0 then
        toString days ++ " days, " ++ toString hoursRem ++ " hours"
      else toString days ++ " days"
    else toString hoursRem ++ " hours"

/-- Amended status-summary description: the label is decided by the
first record in scan order that is expired or inside the warning window;
EXPIRED wins only per record, not globally. -/
def statusSummaryAmended (certs : List CertificateInfo) (warningDays : Int) : String :=
  match certs with
  | [] => "No certificates found"
  | c0 :: _ =>
    match certs.find? (fun cert => cert.isExpired || decide (cert.daysUntilExp ≤ warningDays)) with
    | some cert =>
      if cert.isExpired then "EXPIRED"
      else "EXPIRES SOON (" ++ toString cert.daysUntilExp ++ " days)"
    | none =>
      "VALID ("
        ++ toString ((certs.map (fun cert => cert.daysUntilExp)).foldl min c0.daysUntilExp)
        ++ " days remaining)"

/-- Concrete parsable certificate body used by test fixtures. -/
def rawA : RawCert :=
  { subject := "CN=alpha", issuer := "CN=root", serialNumber := "1",
    notBefore := 0, notAfter := 864000000000000, dnsNames := [], ipAddresses := [],
    keyUsage := 1, isCA := false }

/-- Second concrete parsable certificate body. -/
def rawC : RawCert :=
  { subject := "CN=gamma", issuer := "CN=root", serialNumber := "3",
    notBefore := 0, notAfter := 1728000000000000, dnsNames := [], ipAddresses := [],
    keyUsage := 0, isCA := true }

/-- Concrete x509 parser fixture: block bodies 1 and 3 parse, everything
else (in particular body 2, the corrupted block) fails. -/
def px0 : X509Parse :=
  fun der => if der = 1 then some rawA else if der = 3 then some rawC else none

/-- A well-formed CERTIFICATE block with the given body. -/
def certBlock (der : Nat) : PemBlock := { blockType := "CERTIFICATE", der := der }

/-- A PEM input holding exactly one good certificate block. -/
def pemGood : PemText := { isEmptyStr := false, blocks := [certBlock 1] }

/-- A PEM input holding one different good certificate block. -/
def pemAlt : PemText := { isEmptyStr := false, blocks := [certBlock 3] }

/-- A record far from expiry (evaluator fixtures are plain data). -/
def certValid : CertificateInfo :=
  { subject := "CN=valid", issuer := "CN=root", serialNumber := "4",
    notBefore := 0, notAfter := 8640000000000000, isExpired := false,
    daysUntilExp := 100, dnsNames := [], ipAddresses := [], keyUsage := [],
    isCA := false }

/-- A record inside a 30-day warning window. -/
def certSoon : CertificateInfo :=
  { subject := "CN=soon", issuer := "CN=root", serialNumber := "5",
    notBefore := 0, notAfter := 432000000000000, isExpired := false,
    daysUntilExp := 5, dnsNames := [], ipAddresses := [], keyUsage := [],
    isCA := false }

/-- An expired record. -/
def certExpired : CertificateInfo :=
  { subject := "CN=expired", issuer := "CN=root", serialNumber := "6",
    notBefore := -864000000000000, notAfter := -259200000000000, isExpired := true,
    daysUntilExp := -3, dnsNames := [], ipAddresses := [], keyUsage := [],
    isCA := false }

/-- Cluster environment whose pod fetch succeeds with a volume-less pod
and whose trust anchor is the empty string. -/
def env0 : ClusterEnv :=
  { getPod := fun _ _ => .ok { volumes := [] },
    getSecret := fun _ _ => .error "forbidden",
    getConfigMap := fun _ _ => .error "forbidden",
    clusterCA := { isEmptyStr := true, blocks := [] } }

/-- Cluster environment like `env0` but with a parsable trust anchor. -/
def env1 : ClusterEnv :=
  { getPod := fun _ _ => .ok { volumes := [] },
    getSecret := fun _ _ => .error "forbidden",
    getConfigMap := fun _ _ => .error "forbidden",
    clusterCA := pemGood }

/-- Configmap carrying a certificate under "ca.crt" in both the plain
and the binary map. -/
def cmBoth : ConfigMapObj :=
  { data := fun k => if k = "ca.crt" then some pemGood else none,
    binaryData := fun k => if k = "ca.crt" then some pemAlt else none }

/-- Configmap identical to `cmBoth` except that the binary entry under
"ca.crt" is absent. -/
def cmPlainOnly : ConfigMapObj :=
  { data := fun k => if k = "ca.crt" then some pemGood else none,
    binaryData := fun _ => none }

/-- A presigned URL that already carries a cluster-id parameter for a
different cluster. -/
def urlPreTagged : List Nat :=
  strBytes "https://sts.us-east-1.amazonaws.com/?Action=GetCallerIdentity&X-K8s-Aws-Id=other"

/-- A presigned URL with no query string and no cluster-id parameter. -/
def urlPlain : List Nat := strBytes "https://sts.us-east-1.amazonaws.com/"

theorem tdiv_hour_day (a : Int) :
    Int.tdiv (Int.tdiv a nsPerHour) 24 = Int.tdiv a nsPerDay := by
  cases a with
  | ofNat m =>
    have h1 : Int.tdiv (Int.ofNat m) nsPerHour = Int.ofNat (m / 3600000000000) := rfl
    have h2 : Int.tdiv (Int.ofNat (m / 3600000000000)) 24
        = Int.ofNat (m / 3600000000000 / 24) := rfl
    have h3 : Int.tdiv (Int.ofNat m) nsPerDay = Int.ofNat (m / 86400000000000) := rfl
    rw [h1, h2, h3, Nat.div_div_eq_div_mul]
  | negSucc m =>
    have h1 : Int.tdiv (Int.negSucc m) nsPerHour
        = -Int.ofNat ((m + 1) / 3600000000000) := rfl
    have h3 : Int.tdiv (Int.negSucc m) nsPerDay
        = -Int.ofNat ((m + 1) / 86400000000000) := rfl
    rw [h1, h3]
    have h4 : (m + 1) / 86400000000000 = (m + 1) / 3600000000000 / 24 := by
      rw [Nat.div_div_eq_div_mul]
    rw [h4]
    generalize (m + 1) / 3600000000000 = k
    cases k with
    | zero => rfl
    | succ j => rfl

theorem bundleLoop_eq (px : X509Parse) (now : Int) :
    ∀ (bs : List PemBlock) (acc : List CertificateInfo),
      bundleLoop px now bs acc
        = acc ++ bs.filterMap (fun block =>
            if block.blockType = "CERTIFICATE" then (px block.der).map (mkCertInfo now)
            else none)
  | [], acc => by simp [bundleLoop]
  | block :: rest, acc => by
    by_cases hbt : block.blockType = "CERTIFICATE"
    · cases hpx : px block.der with
      | none =>
        simp [bundleLoop, hbt, hpx, bundleLoop_eq px now rest acc]
      | some cert =>
        simp [bundleLoop, hbt, hpx,
          bundleLoop_eq px now rest (acc ++ [mkCertInfo now cert])]
    · simp [bundleLoop, hbt, bundleLoop_eq px now rest acc]

theorem validate_foldl_eq (warningDays : Int) :
    ∀ (certs : List CertificateInfo) (acc : List String),
      certs.foldl (fun warnings cert =>
        if cert.isExpired then
          warnings ++ ["Certificate '" ++ cert.subject ++ "' has EXPIRED on "
            ++ formatYMD cert.notAfter]
        else if cert.daysUntilExp ≤ warningDays then
          warnings ++ ["Certificate '" ++ cert.subject ++ "' expires in "
            ++ toString cert.daysUntilExp ++ " days (" ++ formatYMD cert.notAfter ++ ")"]
        else warnings) acc
      = acc ++ warningsForSpec certs warningDays
  | [], acc => by simp [warningsForSpec]
  | cert :: rest, acc => by
    cases hexp : cert.isExpired with
    | true =>
      simp [warningsForSpec, hexp, validate_foldl_eq warningDays rest, List.filterMap_cons]
    | false =>
      by_cases hd : cert.daysUntilExp ≤ warningDays
      · simp [warningsForSpec, hexp, hd, validate_foldl_eq warningDays rest,
          List.filterMap_cons]
      · simp [warningsForSpec, hexp, hd, validate_foldl_eq warningDays rest,
          List.filterMap_cons]

theorem statusScan_eq_find (warningDays : Int) :
    ∀ certs : List CertificateInfo,
      statusScan warningDays certs
        = (certs.find? (fun cert =>
            cert.isExpired || decide (cert.daysUntilExp ≤ warningDays))).map
            (fun cert =>
              if cert.isExpired then "EXPIRED"
              else "EXPIRES SOON (" ++ toString cert.daysUntilExp ++ " days)")
  | [] => rfl
  | cert :: rest => by
    cases hexp : cert.isExpired with
    | true => simp [statusScan, List.find?, hexp]
    | false =>
      by_cases hd : cert.daysUntilExp ≤ warningDays
      · simp [statusScan, List.find?, hexp, hd]
      · simp [statusScan, List.find?, hexp, hd, statusScan_eq_find warningDays rest]

theorem min_if (m x : Int) : (if x < m then x else m) = min m x := by
  rw [min_def]
  split <;> split <;> omega

theorem foldl_min_eq :
    ∀ (l : List CertificateInfo) (i : Int),
      l.foldl (fun minD cert =>
        if cert.daysUntilExp < minD then cert.daysUntilExp else minD) i
      = l.foldl (fun minD cert => min minD cert.daysUntilExp) i
  | [], _ => rfl
  | cert :: rest, i => by
    rw [List.foldl_cons, List.foldl_cons, min_if, foldl_min_eq rest]

theorem b64_val_alpha : ∀ n, n < 64 → b64UrlValue (b64UrlAlphabet n) = n := by decide

theorem b64url_roundtrip :
    ∀ bs : List Nat, (∀ x ∈ bs, x < 256) → b64urlDecode (b64urlEncode bs) = bs
  | [], _ => rfl
  | [a], h => by
    have ha : a < 256 := h a (by simp)
    simp only [b64urlEncode, b64urlDecode]
    rw [b64_val_alpha (a / 4) (by omega), b64_val_alpha (a % 4 * 16) (by omega)]
    congr 1
    omega
  | [a, b], h => by
    have ha : a < 256 := h a (by simp)
    have hb : b < 256 := h b (by simp)
    simp only [b64urlEncode, b64urlDecode]
    rw [b64_val_alpha (a / 4) (by omega), b64_val_alpha (a % 4 * 16 + b / 16) (by omega),
      b64_val_alpha (b % 16 * 4) (by omega)]
    congr 1
    · omega
    · congr 1
      omega
  | a :: b :: c :: rest, h => by
    have ha : a < 256 := h a (by simp)
    have hb : b < 256 := h b (by simp)
    have hc : c < 256 := h c (by simp)
    have ih := b64url_roundtrip rest (fun x hx => h x (by simp [hx]))
    simp only [b64urlEncode, b64urlDecode]
    rw [b64_val_alpha (a / 4) (by omega), b64_val_alpha (a % 4 * 16 + b / 16) (by omega),
      b64_val_alpha (b % 16 * 4 + c / 64) (by omega), b64_val_alpha (c % 64) (by omega), ih]
    congr 1
    · omega
    · congr 1
      · omega
      · congr 1
        omega

theorem leadsWith_append (l r : List Nat) : leadsWith l (l ++ r) = true := by
  induction l with
  | nil => rfl
  | cons a as ih => simp [leadsWith, ih]

theorem hasSub_append (pre N post : List Nat) : hasSub N (pre ++ (N ++ post)) = true := by
  induction pre with
  | nil =>
    simp only [List.nil_append]
    cases N with
    | nil =>
      cases post with
      | nil => rfl
      | cons p t => simp [hasSub, leadsWith]
    | cons n t =>
      simp only [hasSub, Bool.or_eq_true]
      exact Or.inl (leadsWith_append (n :: t) post)
  | cons p ps ih => simp [hasSub, ih]

theorem addClusterId_lt_256 (clusterName urlStr : List Nat)
    (hurl : ∀ x ∈ urlStr, x < 256) (hcn : ∀ x ∈ clusterName, x < 256) :
    ∀ x ∈ addClusterId clusterName urlStr, x < 256 := by
  unfold addClusterId
  split
  · exact hurl
  · intro x hx
    simp only [List.append_assoc, List.mem_append] at hx
    rcases hx with hx | hx | hx | hx
    · exact hurl x hx
    · revert hx
      split <;> revert x <;> decide
    · revert x hx
      decide
    · exact hcn x hx

theorem clusterCA_ne_secretKey (s : String) : ("cluster-ca" : String) ≠ "secret-" ++ s := by
  intro h
  have h2 : some 'c' = some 's' := congrArg (fun t => t.data.head?) h
  exact absurd (Option.some.inj h2) (by decide)

theorem clusterCA_ne_configmapKey (s : String) :
    ("cluster-ca" : String) ≠ "configmap-" ++ s := by
  intro h
  have h2 : some 'l' = some 'o' := congrArg (fun t => t.data.tail.head?) h
  exact absurd (Option.some.inj h2) (by decide)

theorem volumeStep_preserves_clusterCA (px : X509Parse) (now : Int) (env : ClusterEnv)
    (nspace : String) (m : String → Option CertificateSource) (volume : VolumeRef) :
    analyzeVolumeStep px now env nspace m volume "cluster-ca" = m "cluster-ca" := by
  unfold analyzeVolumeStep
  have hsec : ∀ m0 : String → Option CertificateSource,
      (match volume.secret with
       | none => m0
       | some secretName =>
         let key := "secret-" ++ secretName
         match ExtractCertificatesFromSecret px now env.getSecret nspace secretName with
         | (source, none) => mapInsert key source m0
         | (_, some e) =>
           mapInsert key
             { stype := "secret", name := secretName, nspace := nspace, error := some e }
             m0) "cluster-ca" = m0 "cluster-ca" := by
    intro m0
    cases volume.secret with
    | none => rfl
    | some secretName =>
      cases hx : ExtractCertificatesFromSecret px now env.getSecret nspace secretName with
      | mk source err =>
        cases err <;>
          simp [hx, mapInsert, clusterCA_ne_secretKey secretName]
  cases volume.configMap with
  | none => exact hsec m
  | some configMapName =>
    cases hx : ExtractCertificatesFromConfigMap px now env.getConfigMap nspace configMapName with
    | mk source err =>
      cases err <;>
        simp [hx, mapInsert, clusterCA_ne_configmapKey configMapName, hsec]

theorem foldl_volumes_preserves_clusterCA (px : X509Parse) (now : Int) (env : ClusterEnv)
    (nspace : String) :
    ∀ (vols : List VolumeRef) (m : String → Option CertificateSource),
      (vols.foldl (analyzeVolumeStep px now env nspace) m) "cluster-ca" = m "cluster-ca"
  | [], _ => rfl
  | v :: rest, m => by
    rw [List.foldl_cons, foldl_volumes_preserves_clusterCA px now env nspace rest,
      volumeStep_preserves_clusterCA]

/-- C1 (amended): ParseCertificate inspects only the first PEM block of
its input: with no block it reports the PEM decode failure; with a first
block of another type, or whose DER fails to decode, it returns an error
and no partial result; with a parsable first CERTIFICATE block it
succeeds, whatever blocks follow. -/
theorem parseCertificate_first_block (px : X509Parse) (now : Int) (e : Bool)
    (block : PemBlock) (rest : List PemBlock) :
    ParseCertificate px now { isEmptyStr := e, blocks := [] }
        = .error "failed to decode PEM block"
    ∧ ParseCertificate px now { isEmptyStr := e, blocks := block :: rest }
        = ParseCertificate px now { isEmptyStr := e, blocks := [block] }
    ∧ (block.blockType ≠ "CERTIFICATE" →
        ParseCertificate px now { isEmptyStr := e, blocks := block :: rest }
          = .error ("not a certificate, found: " ++ block.blockType))
    ∧ (block.blockType = "CERTIFICATE" → px block.der = none →
        ParseCertificate px now { isEmptyStr := e, blocks := block :: rest }
          = .error "failed to parse certificate")
    ∧ (∀ cert, block.blockType = "CERTIFICATE" → px block.der = some cert →
        ParseCertificate px now { isEmptyStr := e, blocks := block :: rest }
          = .ok (mkCertInfo now cert)) := by
  refine ⟨rfl, rfl, ?_, ?_, ?_⟩
  · intro hbt
    simp [ParseCertificate, hbt]
  · intro hbt hpx
    simp [ParseCertificate, hbt, hpx]
  · intro cert hbt hpx
    simp [ParseCertificate, hbt, hpx]

/-- Witness for C1: the theorem applied to a first block of a
non-certificate type. -/
theorem parseCertificate_first_block_witness :
    ParseCertificate px0 0
        { isEmptyStr := false,
          blocks := [{ blockType := "RSA PRIVATE KEY", der := 1 }, certBlock 1] }
      = .error "not a certificate, found: RSA PRIVATE KEY" :=
  (parseCertificate_first_block px0 0 false
    { blockType := "RSA PRIVATE KEY", der := 1 } [certBlock 1]).2.2.1 (by decide)

/-- C1 counterexample: an input made of two PEM blocks on which
ParseCertificate succeeds and returns the first certificate, where the
claim demands an error for every input with more than one block. -/
theorem parseCertificate_multiblock_succeeds :
    ({ isEmptyStr := false, blocks := [certBlock 1, certBlock 3] } : PemText).blocks.length = 2
    ∧ ParseCertificate px0 0 { isEmptyStr := false, blocks := [certBlock 1, certBlock 3] }
        = .ok (mkCertInfo 0 rawA) :=
  ⟨rfl, rfl⟩

/-- C2 (amended): the discovery map carries the "cluster-ca" entry
exactly when GetClusterCACertificateInfo returned no error; when the
trust anchor is empty or unparsable the entry is omitted from the map
rather than kept with an error string. -/
theorem analyzePod_clusterCA (px : X509Parse) (now : Int) (env : ClusterEnv)
    (nspace podName : String) (pod : PodObj)
    (hpod : env.getPod nspace podName = .ok pod) :
    ∃ m, AnalyzePodCertificates px now env nspace podName = .ok m
      ∧ ((GetClusterCACertificateInfo px now env.clusterCA).2 = none →
          m "cluster-ca" = some (GetClusterCACertificateInfo px now env.clusterCA).1)
      ∧ ((GetClusterCACertificateInfo px now env.clusterCA).2 ≠ none →
          m "cluster-ca" = none) := by
  cases hca : GetClusterCACertificateInfo px now env.clusterCA with
  | mk src err =>
    unfold AnalyzePodCertificates
    rw [hpod, hca]
    cases err with
    | none =>
      refine ⟨_, rfl, ?_, ?_⟩
      · intro _
        rw [foldl_volumes_preserves_clusterCA]
        simp [hca, mapInsert]
      · intro hne
        simp at hne
    | some e =>
      refine ⟨_, rfl, ?_, ?_⟩
      · intro hnone
        simp at hnone
      · intro _
        rw [foldl_volumes_preserves_clusterCA]

/-- Witness for C2: the amended theorem applied to an environment with a
parsable trust anchor. -/
theorem analyzePod_clusterCA_witness :
    ∃ m, AnalyzePodCertificates px0 0 env1 "default" "web" = .ok m
      ∧ ((GetClusterCACertificateInfo px0 0 env1.clusterCA).2 = none →
          m "cluster-ca" = some (GetClusterCACertificateInfo px0 0 env1.clusterCA).1)
      ∧ ((GetClusterCACertificateInfo px0 0 env1.clusterCA).2 ≠ none →
          m "cluster-ca" = none) :=
  analyzePod_clusterCA px0 0 env1 "default" "web" { volumes := [] } rfl

/-- C2 counterexample: with an empty trust anchor the error source is
built by GetClusterCACertificateInfo but the discovery map has no
"cluster-ca" entry at all, where the claim requires the entry to appear
with a non-empty error string. -/
theorem analyzePod_clusterCA_dropped :
    (GetClusterCACertificateInfo px0 0 env0.clusterCA).1.error
        = some "No cluster CA certificate available"
    ∧ (AnalyzePodCertificates px0 0 env0 "default" "web").map (fun m => m "cluster-ca")
        = .ok none :=
  ⟨rfl, rfl⟩

/-- C3 (amended): the status summary is decided by the first record in
scan order that is expired or inside the warning window — EXPIRED wins
only per record, not across the whole list — with the VALID minimum and
the empty-list label as claimed; the spec's own expired-beats-valid
examples do hold. -/
theorem statusSummary_first_alert :
    (∀ certs warningDays, getExpiryStatusSummary certs warningDays
        = statusSummaryAmended certs warningDays)
    ∧ getExpiryStatusSummary [] 30 = "No certificates found"
    ∧ getExpiryStatusSummary [certValid, certExpired] 30 = "EXPIRED"
    ∧ getExpiryStatusSummary [certExpired, certValid] 30 = "EXPIRED"
    ∧ getExpiryStatusSummary [certValid] 30 = "VALID (100 days remaining)" := by
  refine ⟨?_, rfl, rfl, rfl, rfl⟩
  intro certs warningDays
  cases certs with
  | nil => rfl
  | cons c0 rest =>
    unfold getExpiryStatusSummary statusSummaryAmended
    rw [statusScan_eq_find]
    cases hf : (c0 :: rest).find?
        (fun cert => cert.isExpired || decide (cert.daysUntilExp ≤ warningDays)) with
    | some cert => simp [hf]
    | none =>
      simp only [hf, Option.map_none']
      rw [foldl_min_eq, List.foldl_map]

/-- C3 counterexample: a list holding an expired record behind a
soon-expiring record is summarised as EXPIRES SOON, where the claim
demands EXPIRED whenever any record of the list is expired. -/
theorem statusSummary_expired_not_dominant :
    certExpired.isExpired = true
    ∧ getExpiryStatusSummary [certSoon, certExpired] 30 = "EXPIRES SOON (5 days)" :=
  ⟨rfl, rfl⟩

/-- C4: every record ParseCertificate produces has daysUntilExpiry equal
to the hour count from now to notAfter divided by 24 with the quotient
truncated toward zero, and isExpired exactly when now is strictly after
notAfter. -/
theorem parseCertificate_numeric (px : X509Parse) (now : Int) (t : PemText)
    (cert : CertificateInfo) (h : ParseCertificate px now t = .ok cert) :
    cert.daysUntilExp = Int.tdiv (Int.tdiv (cert.notAfter - now) nsPerHour) 24
    ∧ (cert.isExpired = true ↔ now > cert.notAfter) := by
  unfold ParseCertificate at h
  split at h
  · exact absurd h (by simp)
  · split at h
    · exact absurd h (by simp)
    · split at h
      · exact absurd h (by simp)
      · injection h with h
        subst h
        refine ⟨?_, ?_⟩
        · simp only [mkCertInfo]
          exact (tdiv_hour_day _).symm
        · simp [mkCertInfo, decide_eq_true_iff]

/-- Witness for C4: the theorem applied to the concrete one-block PEM
fixture. -/
theorem parseCertificate_numeric_witness :
    (mkCertInfo 0 rawA).daysUntilExp
        = Int.tdiv (Int.tdiv ((mkCertInfo 0 rawA).notAfter - 0) nsPerHour) 24
    ∧ ((mkCertInfo 0 rawA).isExpired = true ↔ (0 : Int) > (mkCertInfo 0 rawA).notAfter) :=
  parseCertificate_numeric px0 0 pemGood (mkCertInfo 0 rawA) rfl

/-- C5 (amended): the fallback token is the literal prefix "k8s-aws-v1."
followed by the URL-safe unpadded base64 encoding of the annotated URL;
when the URL does not already contain "X-K8s-Aws-Id" the annotation
appends "X-K8s-Aws-Id=<clusterName>" with the claimed separator rule and
the decoded remainder then contains that parameter; when the URL already
contains the substring it is embedded unchanged. -/
theorem generateToken_structure (clusterName presignedURL : List Nat)
    (hurl : ∀ x ∈ presignedURL, x < 256) (hcn : ∀ x ∈ clusterName, x < 256) :
    leadsWith (strBytes "k8s-aws-v1.") (tokenPayload clusterName presignedURL) = true
    ∧ b64urlDecode ((tokenPayload clusterName presignedURL).drop 11)
        = addClusterId clusterName presignedURL
    ∧ (hasSub (strBytes "X-K8s-Aws-Id") presignedURL = false →
        addClusterId clusterName presignedURL
          = presignedURL
            ++ (if hasSub (strBytes "?") presignedURL then strBytes "&" else strBytes "?")
            ++ strBytes "X-K8s-Aws-Id=" ++ clusterName
        ∧ hasSub (strBytes "X-K8s-Aws-Id=" ++ clusterName)
            (addClusterId clusterName presignedURL) = true)
    ∧ (hasSub (strBytes "X-K8s-Aws-Id") presignedURL = true →
        addClusterId clusterName presignedURL = presignedURL) := by
  refine ⟨?_, ?_, ?_, ?_⟩
  · unfold tokenPayload
    exact leadsWith_append _ _
  · unfold tokenPayload
    rw [show (11 : Nat) = (strBytes "k8s-aws-v1.").length from rfl, List.drop_left]
    exact b64url_roundtrip _ (addClusterId_lt_256 _ _ hurl hcn)
  · intro hno
    refine ⟨by simp [addClusterId, hno], ?_⟩
    have hs := hasSub_append
      (presignedURL ++ (if hasSub (strBytes "?") presignedURL then strBytes "&" else strBytes "?"))
      (strBytes "X-K8s-Aws-Id=" ++ clusterName) []
    simpa [addClusterId, hno, List.append_assoc] using hs
  · intro hyes
    simp [addClusterId, hyes]

/-- Witness for C5: the theorem applied to a query-less URL free of the
cluster-id substring. -/
theorem generateToken_structure_witness :
    addClusterId (strBytes "demo") urlPlain
      = urlPlain
        ++ (if hasSub (strBytes "?") urlPlain then strBytes "&" else strBytes "?")
        ++ strBytes "X-K8s-Aws-Id=" ++ strBytes "demo"
    ∧ hasSub (strBytes "X-K8s-Aws-Id=" ++ strBytes "demo")
        (addClusterId (strBytes "demo") urlPlain) = true :=
  (generateToken_structure (strBytes "demo") urlPlain (by decide) (by decide)).2.2.1
    (by decide)

/-- C5 counterexample: a presigned URL already tagged with a different
cluster id is embedded unchanged, so the decoded remainder of the token
does not contain "X-K8s-Aws-Id=demo", where the claim says the decoded
remainder always contains the parameter for the requested cluster. -/
theorem generateToken_wrong_cluster_kept :
    hasSub (strBytes "X-K8s-Aws-Id") urlPreTagged = true
    ∧ b64urlDecode ((tokenPayload (strBytes "demo") urlPreTagged).drop 11) = urlPreTagged
    ∧ hasSub (strBytes "X-K8s-Aws-Id=demo") urlPreTagged = false :=
  ⟨by decide, by decide, by decide⟩

/-- C6: ParseCertificateBundle skips every block that is not a parsable
certificate and continues scanning, keeping the surviving records in
input order, and errs exactly when no record survives; the
three-certificate bundle with a corrupted middle block yields the two
good records, and empty or all-invalid inputs yield the error. -/
theorem parseCertificateBundle_skips (px : X509Parse) (now : Int) (t : PemText) :
    ParseCertificateBundle px now t = parseCertificateBundleSpec px now t
    ∧ ((∃ e, ParseCertificateBundle px now t = .error e)
        ↔ t.blocks.filterMap (fun block =>
            if block.blockType = "CERTIFICATE" then (px block.der).map (mkCertInfo now)
            else none) = [])
    ∧ (ParseCertificateBundle px0 0
          { isEmptyStr := false, blocks := [certBlock 1, certBlock 2, certBlock 3] }).map
        (List.map (fun cert => cert.subject))
        = .ok ["CN=alpha", "CN=gamma"]
    ∧ ParseCertificateBundle px0 0 { isEmptyStr := true, blocks := [] }
        = .error "no valid certificates found in bundle"
    ∧ ParseCertificateBundle px0 0 { isEmptyStr := false, blocks := [certBlock 2] }
        = .error "no valid certificates found in bundle" := by
  have hmain : ParseCertificateBundle px now t = parseCertificateBundleSpec px now t := by
    unfold ParseCertificateBundle parseCertificateBundleSpec
    rw [bundleLoop_eq]
    simp [List.isEmpty_iff]
  refine ⟨hmain, ?_, rfl, rfl, rfl⟩
  rw [hmain]
  unfold parseCertificateBundleSpec
  generalize t.blocks.filterMap (fun block =>
    if block.blockType = "CERTIFICATE" then (px block.der).map (mkCertInfo now)
    else none) = l
  cases l with
  | nil => simp
  | cons c cs => simp

/-- C7: ValidateCertificateExpiry emits, in list order, exactly the
claimed EXPIRED line for each expired record, the claimed expires-in
line for each non-expired record within the warning window, and nothing
for any other record. -/
theorem validateExpiry_warnings :
    (∀ certs warningDays, ValidateCertificateExpiry certs warningDays
        = warningsForSpec certs warningDays)
    ∧ ValidateCertificateExpiry [certExpired] 30
        = ["Certificate 'CN=expired' has EXPIRED on 1969-12-29"]
    ∧ ValidateCertificateExpiry [certSoon] 30
        = ["Certificate 'CN=soon' expires in 5 days (1970-01-06)"]
    ∧ ValidateCertificateExpiry [certValid] 30 = [] := by
  refine ⟨?_, by decide, by decide, by decide⟩
  intro certs warningDays
  unfold ValidateCertificateExpiry
  rw [validate_foldl_eq]
  simp

/-- C8: formatDuration agrees with the spec's day/hour bucket
description everywhere, including the spec's boundary table. -/
theorem formatDuration_spec :
    (∀ d, formatDuration d = formatRemainingSpec d)
    ∧ formatDuration (400 * nsPerDay) = "1 years, 35 days"
    ∧ formatDuration (40 * nsPerDay) = "1 months, 10 days"
    ∧ formatDuration (5 * nsPerDay + 3 * nsPerHour) = "5 days, 3 hours"
    ∧ formatDuration (7 * nsPerHour) = "7 hours"
    ∧ formatDuration (-1) = "Expired" := by
  refine ⟨?_, by decide, by decide, by decide, by decide, rfl⟩
  intro d
  simp only [formatDuration, formatRemainingSpec]
  have h : d.toNat / 3600000000000 / 24 = d.toNat / 86400000000000 := by
    rw [Nat.div_div_eq_div_mul]
  rw [h]

/-- C9: the token phase of client construction tries the helper strategy
first, short-circuits on its success without invoking the fallback,
invokes each strategy at most once, escalates any helper failure to the
fallback exactly once, and fails only when both strategies fail. -/
theorem newClient_token_strategy (p f : Except String String) :
    (∀ t, p = .ok t → newClientToken p f = (.ok t, ["aws-iam-authenticator"]))
    ∧ (newClientToken p f).2.count "aws-iam-authenticator" = 1
    ∧ (newClientToken p f).2.count "GenerateToken" ≤ 1
    ∧ (∀ e, p = .error e →
        (newClientToken p f).2 = ["aws-iam-authenticator", "GenerateToken"])
    ∧ ((∃ e, (newClientToken p f).1 = .error e)
        ↔ (∃ e1, p = .error e1) ∧ (∃ e2, f = .error e2)) := by
  cases p with
  | ok t0 =>
    refine ⟨fun t h => by injection h with h; subst h; rfl,
            ?_, ?_,
            fun e h => absurd h (by simp),
            by simp [newClientToken]⟩
    · show List.count "aws-iam-authenticator" ["aws-iam-authenticator"] = 1
      decide
    · show List.count "GenerateToken" ["aws-iam-authenticator"] ≤ 1
      decide
  | error e0 =>
    cases f with
    | ok t1 =>
      refine ⟨fun t h => absurd h (by simp),
              ?_, ?_,
              fun e h => rfl,
              by simp [newClientToken]⟩
      · show List.count "aws-iam-authenticator" ["aws-iam-authenticator", "GenerateToken"] = 1
        decide
      · show List.count "GenerateToken" ["aws-iam-authenticator", "GenerateToken"] ≤ 1
        decide
    | error e1 =>
      refine ⟨fun t h => absurd h (by simp),
              ?_, ?_,
              fun e h => rfl,
              by simp [newClientToken]⟩
      · show List.count "aws-iam-authenticator" ["aws-iam-authenticator", "GenerateToken"] = 1
        decide
      · show List.count "GenerateToken" ["aws-iam-authenticator", "GenerateToken"] ≤ 1
        decide

/-- Witness for C9: the theorem applied with a succeeding helper
strategy and a failing fallback. -/
theorem newClient_token_strategy_witness :
    newClientToken (.ok "tokenA") (.error "no creds")
      = (.ok "tokenA", ["aws-iam-authenticator"]) :=
  (newClient_token_strategy (.ok "tokenA") (.error "no creds")).1 "tokenA" rfl

/-- C10: configmap extraction reads only the plain Data value for any
key present in both maps — the extraction result is unchanged however
the BinaryData entries under Data-covered keys are altered — so the
binary value is consulted only for keys absent from Data. -/
theorem configMap_data_precedence (px : X509Parse) (now : Int) (cm1 cm2 : ConfigMapObj)
    (hdata : cm1.data = cm2.data)
    (hbin : ∀ k, cm1.data k = none → cm1.binaryData k = cm2.binaryData k)
    (get1 get2 : String → String → Except String ConfigMapObj) (nspace nm : String)
    (h1 : get1 nspace nm = .ok cm1) (h2 : get2 nspace nm = .ok cm2) :
    ExtractCertificatesFromConfigMap px now get1 nspace nm
      = ExtractCertificatesFromConfigMap px now get2 nspace nm := by
  unfold ExtractCertificatesFromConfigMap
  rw [h1, h2]
  have hstep : ∀ (keys : List String) (acc : List CertificateInfo),
      keys.foldl (configMapKeyStep px now cm1) acc
        = keys.foldl (configMapKeyStep px now cm2) acc := by
    intro keys
    induction keys with
    | nil => intro acc; rfl
    | cons k ks ih =>
      intro acc
      rw [List.foldl_cons, List.foldl_cons, ih]
      have harm : configMapKeyStep px now cm1 acc k = configMapKeyStep px now cm2 acc k := by
        unfold configMapKeyStep
        rw [hdata]
        cases hd : cm2.data k with
        | some v => rfl
        | none =>
          rw [hbin k (by rw [hdata, hd])]
      rw [harm]
  have hcerts : configMapCerts px now cm1 = configMapCerts px now cm2 :=
    hstep configMapCertKeys []
  simp [hcerts]

/-- Witness for C10: the theorem applied to a configmap carrying both a
plain and a binary value under "ca.crt" versus the same configmap with
the binary entry removed. -/
theorem configMap_data_precedence_witness :
    ExtractCertificatesFromConfigMap px0 0 (fun _ _ => .ok cmBoth) "default" "cm"
      = ExtractCertificatesFromConfigMap px0 0 (fun _ _ => .ok cmPlainOnly) "default" "cm" := by
  refine configMap_data_precedence px0 0 cmBoth cmPlainOnly rfl ?_ _ _ "default" "cm" rfl rfl
  intro k hk
  by_cases h : k = "ca.crt"
  · subst h
    simp [cmBoth] at hk
  · simp [cmBoth, cmPlainOnly, h]
